import Mathlib

/-
  Verification of the tvbot points-and-referral core.

  Shallow embedding of src/bot/database.py and src/bot/handlers.py:
  the SQLite row types become Lean structures, each SQL statement of
  database.py becomes a pure transformer of a Db value, and the
  balance-affecting handler bodies of handlers.py become pure functions
  over (Db, User, Settings) together with explicit models of the
  outbound-notification outcomes (aiogram TelegramBadRequest and
  TelegramForbiddenError) and of the membership-oracle answer.
  Timestamps are modelled as whole seconds (the source stores
  datetime.utcnow().isoformat() strings and compares via timedelta;
  the comparison is on the underlying instants).
-/

namespace TvBot

/-- Outbound message failure kinds used by the source
(aiogram TelegramBadRequest and TelegramForbiddenError; the latter is
what sending to a user who blocked the bot raises). -/
inductive NetErr where
  | badRequest
  | forbidden
deriving DecidableEq

/-- Outcome of one outbound send attempt: none means delivered. -/
abbrev SendOutcome := Option NetErr

/-- The configuration fields the core consumes (config.py Settings). -/
structure Settings where
  minWithdrawal : Int
  startBonus : Int
  referralBonus : Int
  dailyBonus : Int
deriving DecidableEq

/-- The defaults from config.py: min_withdrawal 15, start_bonus 3,
referral_bonus 3, daily_bonus 1. -/
def defaultSettings : Settings := ⟨15, 3, 3, 1⟩

/-- One row of the users table (database.py User dataclass).
last_daily_bonus is modelled as seconds since an epoch. -/
structure User where
  telegramId : Nat
  balance : Int
  referredBy : Option Nat
  isSubscribed : Bool
  rewardClaimed : Bool
  lastDailyBonus : Option Nat
  username : Option String
  isBanned : Bool
  startBonusClaimed : Bool
deriving DecidableEq

/-- One row of the withdrawals table (database.py WithdrawalRequest). -/
structure WithdrawalRequest where
  id : Nat
  telegramId : Nat
  amount : Int
  status : String
  createdAt : Nat
deriving DecidableEq

/-- The persisted store: the two tables plus the AUTOINCREMENT counter
for withdrawals.id (SQLite assigns 1 to the first row). -/
structure Db where
  users : List User
  withdrawals : List WithdrawalRequest
  nextWithdrawalId : Nat
deriving DecidableEq

def emptyDb : Db := ⟨[], [], 1⟩

/-- SELECT ... FROM users WHERE telegram_id = ? (Database.get_user). -/
def Db.getUser (db : Db) (id : Nat) : Option User :=
  db.users.find? (fun u => decide (u.telegramId = id))

/-- UPDATE users SET ... WHERE telegram_id = ?: the common shape of the
single-row UPDATE statements of database.py. -/
def Db.updateUser (db : Db) (id : Nat) (f : User → User) : Db :=
  { db with users := db.users.map (fun u => if u.telegramId = id then f u else u) }

/-- INSERT OR IGNORE INTO users (Database.create_user): the row is only
inserted when the primary key is absent; start_bonus_claimed is stored
as int(initial_balance > 0). -/
def Db.createUser (db : Db) (id : Nat) (initialBalance : Int)
    (referredBy : Option Nat) (username : Option String) : Db :=
  if (db.getUser id).isSome then db
  else
    { db with
        users := db.users ++
          [{ telegramId := id, balance := initialBalance,
             referredBy := referredBy, isSubscribed := false,
             rewardClaimed := false, lastDailyBonus := none,
             username := username, isBanned := false,
             startBonusClaimed := decide (0 < initialBalance) }] }

/-- UPDATE users SET referred_by = ? WHERE telegram_id = ? AND
referred_by IS NULL (Database.assign_referrer). -/
def Db.assignReferrer (db : Db) (id : Nat) (ref : Option Nat) : Db :=
  { db with
      users := db.users.map
        (fun u => if u.telegramId = id ∧ u.referredBy = none
                  then { u with referredBy := ref } else u) }

/-- UPDATE users SET balance = balance + ? (Database.update_balance). -/
def Db.updateBalance (db : Db) (id : Nat) (delta : Int) : Db :=
  db.updateUser id (fun u => { u with balance := u.balance + delta })

/-- UPDATE users SET is_subscribed = ? (Database.set_subscription). -/
def Db.setSubscription (db : Db) (id : Nat) (subscribed : Bool) : Db :=
  db.updateUser id (fun u => { u with isSubscribed := subscribed })

/-- UPDATE users SET reward_claimed = ? (Database.set_reward_claimed;
Database.mark_reward_claimed is set_reward_claimed with true). -/
def Db.setRewardClaimed (db : Db) (id : Nat) (claimed : Bool) : Db :=
  db.updateUser id (fun u => { u with rewardClaimed := claimed })

/-- UPDATE users SET start_bonus_claimed = ?
(Database.set_start_bonus_claimed). -/
def Db.setStartBonusClaimed (db : Db) (id : Nat) (claimed : Bool) : Db :=
  db.updateUser id (fun u => { u with startBonusClaimed := claimed })

/-- UPDATE users SET last_daily_bonus = ? (Database.set_last_daily_bonus). -/
def Db.setLastDailyBonus (db : Db) (id : Nat) (ts : Option Nat) : Db :=
  db.updateUser id (fun u => { u with lastDailyBonus := ts })

/-- UPDATE users SET username = ? (Database.update_username). -/
def Db.updateUsername (db : Db) (id : Nat) (username : Option String) : Db :=
  db.updateUser id (fun u => { u with username := username })

/-- UPDATE users SET is_banned = ? (Database.set_ban_status). -/
def Db.setBanFlag (db : Db) (id : Nat) (b : Bool) : Db :=
  db.updateUser id (fun u => { u with isBanned := b })

/-- INSERT INTO withdrawals (telegram_id, amount) VALUES (?, ?)
(Database.add_withdrawal); status defaults to pending and created_at to
the current time, the id is the AUTOINCREMENT counter. -/
def Db.addWithdrawal (db : Db) (id : Nat) (amount : Int) (now : Nat) : Db :=
  { db with
      withdrawals := db.withdrawals ++
        [{ id := db.nextWithdrawalId, telegramId := id, amount := amount,
           status := "pending", createdAt := now }],
      nextWithdrawalId := db.nextWithdrawalId + 1 }

/-- SELECT ... FROM withdrawals WHERE id = ? (Database.get_withdrawal). -/
def Db.getWithdrawal (db : Db) (rid : Nat) : Option WithdrawalRequest :=
  db.withdrawals.find? (fun w => decide (w.id = rid))

/-- UPDATE withdrawals SET status = ? WHERE id = ?
(Database.set_withdrawal_status): unconditional on the current status. -/
def Db.setWithdrawalStatus (db : Db) (rid : Nat) (st : String) : Db :=
  { db with
      withdrawals := db.withdrawals.map
        (fun w => if w.id = rid then { w with status := st } else w) }

/-- Python truthiness of an Optional[int]: None and 0 are falsy. -/
def optNatTruthy : Option Nat → Bool
  | none => false
  | some n => decide (n ≠ 0)

/-- A contextlib.suppress / try-except block around one send attempt:
the caught list is the exception classes named at the call site; an
outcome in the list is swallowed, anything else escapes to the caller. -/
def suppressSet (caught : List NetErr) (outcome : SendOutcome) : Option NetErr :=
  match outcome with
  | none => none
  | some e => if e ∈ caught then none else some e

/-- ASCII whitespace, as stripped by Python int() before parsing. -/
def isSpaceChar (c : Char) : Bool :=
  c = ' ' ∨ c = '\t' ∨ c = '\n' ∨ c = '\r'

/-- Strip leading and trailing whitespace from a character list. -/
def trimChars (cs : List Char) : List Char :=
  ((cs.dropWhile isSpaceChar).reverse.dropWhile isSpaceChar).reverse

/-- Value of a list of decimal digit characters. -/
def digitsToNat (cs : List Char) : Nat :=
  cs.foldl (fun a c => a * 10 + (c.toNat - 48)) 0

def allDigits (cs : List Char) : Bool :=
  cs.all (fun c => c.isDigit)

/-- Python int(text) on the inputs the bot sees: optional sign followed
by decimal digits, surrounding whitespace ignored; anything else raises
ValueError, modelled as none. (Unicode digit forms and underscore
separators, which CPython also accepts, are outside the model.) -/
def pyParseInt (text : String) : Option Int :=
  match trimChars text.data with
  | [] => none
  | '-' :: rest =>
      if rest ≠ [] ∧ allDigits rest then some (-(digitsToNat rest : Int)) else none
  | '+' :: rest =>
      if rest ≠ [] ∧ allDigits rest then some ((digitsToNat rest : Int)) else none
  | cs =>
      if allDigits cs then some ((digitsToNat cs : Int)) else none

def strStartsWithRef (args : String) : Bool :=
  match args.data with
  | 'r' :: 'e' :: 'f' :: _ => true
  | _ => false

def strDrop3 (args : String) : List Char :=
  args.data.drop 3

/-- The referral deep-link parsing of cmd_start (handlers.py 211-216):
args.startswith("ref") and args[3:].isdigit() yield the numeric suffix,
and a suffix equal to the calling id is discarded before ensure runs. -/
def parseStartReferrer (args : String) (telegramId : Nat) : Option Nat :=
  if strStartsWithRef args ∧ strDrop3 args ≠ [] ∧ allDigits (strDrop3 args) then
    if digitsToNat (strDrop3 args) = telegramId then none
    else some (digitsToNat (strDrop3 args))
  else none

/-- _ensure_user_record (handlers.py 45-68). Returns the in-memory user
object, the created flag and the resulting store; none models the
RuntimeError branch (re-fetch after insert failing). On creation the
given referrer is stored as passed; for an existing row the referrer is
assigned only when truthy, the row has none, and it is not the id
itself; the cached username is refreshed only when it differs. -/
def ensureUserRecord (db0 : Db) (telegramId : Nat) (username : Option String)
    (referredBy : Option Nat) : Option (User × Bool × Db) :=
  match db0.getUser telegramId with
  | none =>
      let db1 := db0.createUser telegramId 0 referredBy username
      match db1.getUser telegramId with
      | none => none
      | some u =>
          if u.username ≠ username then
            some ({ u with username := username }, true,
              db1.updateUsername telegramId username)
          else some (u, true, db1)
  | some u0 =>
      let assign : Bool := optNatTruthy referredBy &&
        decide (u0.referredBy = none) && decide (referredBy ≠ some telegramId)
      let u1 := if assign then { u0 with referredBy := referredBy } else u0
      let db1 := if assign then db0.assignReferrer telegramId referredBy else db0
      if u1.username ≠ username then
        some ({ u1 with username := username }, false,
          db1.updateUsername telegramId username)
      else some (u1, false, db1)

/-- Result of _activate_subscription: the store after its committed
writes, the updated in-memory user object, the returned
start_bonus_awarded flag, the recipients of attempted notifications,
and the exception escaping the function, if any. -/
structure ActResult where
  db : Db
  user : User
  startBonusAwarded : Bool
  sends : List Nat
  escaped : Option NetErr
deriving DecidableEq

/-- _activate_subscription (handlers.py 116-142): marks the row
subscribed; credits the start bonus once, gated by start_bonus_claimed;
when a truthy referrer is set and reward_claimed is false, credits the
referral bonus to the referrer (not the referee), marks reward_claimed
on the referee, and attempts one notification to the referrer wrapped
in suppress(TelegramBadRequest) only. -/
def activateSubscription (db0 : Db) (u0 : User) (s : Settings)
    (refNotify : SendOutcome) : ActResult :=
  let db1 := db0.setSubscription u0.telegramId true
  let u1 : User := { u0 with isSubscribed := true }
  let db2 := if u1.startBonusClaimed = false then
      (db1.updateBalance u1.telegramId s.startBonus).setStartBonusClaimed
        u1.telegramId true
    else db1
  let u2 : User := if u1.startBonusClaimed = false then
      { u1 with startBonusClaimed := true }
    else u1
  let awarded : Bool := !u1.startBonusClaimed
  if optNatTruthy u2.referredBy = true ∧ u2.rewardClaimed = false then
    let refId := u2.referredBy.getD 0
    let db3 := (db2.updateBalance refId s.referralBonus).setRewardClaimed
      u2.telegramId true
    ⟨db3, { u2 with rewardClaimed := true }, awarded, [refId],
      suppressSet [NetErr.badRequest] refNotify⟩
  else ⟨db2, u2, awarded, [], none⟩

/-- Result of _handle_unsubscription. -/
structure UnsubResult where
  db : Db
  user : User
  sends : List Nat
  escaped : Option NetErr
deriving DecidableEq

/-- _handle_unsubscription (handlers.py 145-171): marks the row
unsubscribed; when reward_claimed and a truthy referrer are set, debits
the referral bonus from BOTH the referee and the referrer, clears
reward_claimed, and attempts two notifications (referrer first, then
the referee), each wrapped in suppress(TelegramBadRequest) only; an
escaping error from the first attempt skips the second. -/
def handleUnsubscription (db0 : Db) (u0 : User) (s : Settings)
    (n1 n2 : SendOutcome) : UnsubResult :=
  let db1 := db0.setSubscription u0.telegramId false
  let u1 : User := { u0 with isSubscribed := false }
  if u1.rewardClaimed = true ∧ optNatTruthy u1.referredBy = true then
    let refId := u1.referredBy.getD 0
    let db2 := ((db1.updateBalance u1.telegramId (-s.referralBonus)).updateBalance
        refId (-s.referralBonus)).setRewardClaimed u1.telegramId false
    let u2 : User := { u1 with rewardClaimed := false }
    if suppressSet [NetErr.badRequest] n1 = none then
      ⟨db2, u2, [refId, u1.telegramId], suppressSet [NetErr.badRequest] n2⟩
    else ⟨db2, u2, [refId], suppressSet [NetErr.badRequest] n1⟩
  else ⟨db1, u1, [], none⟩

/-- Result of _verify_and_activate_subscription: the returned triple is
(isMember, activated, startBonusAwarded). -/
structure VerifyResult where
  db : Db
  user : User
  isMember : Bool
  activated : Bool
  startBonusAwarded : Bool
  sends : List Nat
  escaped : Option NetErr
deriving DecidableEq

/-- _verify_and_activate_subscription (handlers.py 174-185) with the
membership-oracle answer passed in: not a member and currently
subscribed triggers _handle_unsubscription; a member and not yet
subscribed triggers _activate_subscription; otherwise a no-op. -/
def verifyAndActivate (db0 : Db) (u0 : User) (s : Settings) (isMember : Bool)
    (actNotify n1 n2 : SendOutcome) : VerifyResult :=
  if isMember = false then
    if u0.isSubscribed = true then
      let r := handleUnsubscription db0 u0 s n1 n2
      ⟨r.db, r.user, false, false, false, r.sends, r.escaped⟩
    else ⟨db0, u0, false, false, false, [], none⟩
  else if u0.isSubscribed = false then
    let r := activateSubscription db0 u0 s actNotify
    ⟨r.db, r.user, true, true, r.startBonusAwarded, r.sends, r.escaped⟩
  else ⟨db0, u0, true, false, false, [], none⟩

/-- Outcome reported by the daily-bonus handler. -/
inductive DailyOutcome where
  | refused (hours minutes : Nat)
  | credited
deriving DecidableEq

/-- The daily-bonus core (handlers.py 281-299, after the ban and
subscription gates): if last_daily_bonus is unset or 24 hours have
passed, credit the configured amount and stamp now; otherwise report
the remaining wait split into whole hours and minutes exactly as
divmod(int(remaining.total_seconds()), 3600) and remainder // 60 do. -/
def dailyBonus (db0 : Db) (u : User) (s : Settings) (now : Nat) :
    Db × DailyOutcome :=
  match u.lastDailyBonus with
  | some t =>
      if now - t < 86400 then
        let remaining := 86400 - (now - t)
        (db0, DailyOutcome.refused (remaining / 3600) ((remaining % 3600) / 60))
      else
        ((db0.updateBalance u.telegramId s.dailyBonus).setLastDailyBonus
            u.telegramId (some now), DailyOutcome.credited)
  | none =>
      ((db0.updateBalance u.telegramId s.dailyBonus).setLastDailyBonus
          u.telegramId (some now), DailyOutcome.credited)

/-- The IDLE to AWAITING_AMOUNT gate of withdrawal_request
(handlers.py 424-429): true when the state is set, i.e. the balance is
not below the configured minimum. -/
def withdrawalRequestEntry (u : User) (s : Settings) : Bool :=
  !(decide (u.balance < s.minWithdrawal))

/-- Distinguishable replies of process_withdraw_amount. -/
inductive WithdrawOutcome where
  | formatError
  | minError
  | insufficientError
  | success
deriving DecidableEq

/-- Result of process_withdraw_amount: the store, whether the
per-account AWAITING_AMOUNT state was cleared, and the reply kind. -/
structure WithdrawResult where
  db : Db
  stateCleared : Bool
  outcome : WithdrawOutcome
deriving DecidableEq

/-- process_withdraw_amount (handlers.py 448-469, after the ban and
subscription gates): int(message.text), a TypeError or ValueError
giving the format reply; then the minimum check, then the balance
check, each leaving the state set and the store untouched; on success
the amount is debited, the pending request row is inserted, and the
state is cleared. -/
def processWithdrawAmount (db0 : Db) (u : User) (s : Settings)
    (text : Option String) (now : Nat) : WithdrawResult :=
  match text.bind pyParseInt with
  | none => ⟨db0, false, WithdrawOutcome.formatError⟩
  | some amount =>
      if amount < s.minWithdrawal then ⟨db0, false, WithdrawOutcome.minError⟩
      else if u.balance < amount then
        ⟨db0, false, WithdrawOutcome.insufficientError⟩
      else
        ⟨(db0.updateBalance u.telegramId (-amount)).addWithdrawal
            u.telegramId amount now,
          true, WithdrawOutcome.success⟩

/-- Result of _update_withdrawal_status. -/
structure ResolveResult where
  db : Db
  sends : List Nat
  refused : Bool
  escaped : Option NetErr
deriving DecidableEq

/-- _update_withdrawal_status (handlers.py 741-777): an unknown id is
refused with no mutation; otherwise the status is set unconditionally,
whatever the current status, and one notification to the requester is
attempted inside suppress(TelegramBadRequest, TelegramForbiddenError).
(The edit of the admin-chat message is display only and mutates no
store state.) -/
def updateWithdrawalStatus (db0 : Db) (requestId : Nat) (status : String)
    (notify : SendOutcome) : ResolveResult :=
  match db0.getWithdrawal requestId with
  | none => ⟨db0, [], true, none⟩
  | some req =>
      ⟨db0.setWithdrawalStatus requestId status, [req.telegramId], false,
        suppressSet [NetErr.badRequest, NetErr.forbidden] notify⟩

/-- Result of _set_ban_status. -/
structure BanResult where
  db : Db
  found : Bool
  sends : List Nat
  escaped : Option NetErr
deriving DecidableEq

/-- _set_ban_status (handlers.py 619-636): unknown id is a no-op; an
unchanged flag is a no-op with no notification; otherwise the flag is
persisted and one notice is attempted inside
suppress(TelegramBadRequest, TelegramForbiddenError). -/
def setBanStatusAction (db0 : Db) (userId : Nat) (banned : Bool)
    (notify : SendOutcome) : BanResult :=
  match db0.getUser userId with
  | none => ⟨db0, false, [], none⟩
  | some u =>
      if u.isBanned = banned then ⟨db0, true, [], none⟩
      else
        ⟨db0.setBanFlag userId banned, true, [userId],
          suppressSet [NetErr.badRequest, NetErr.forbidden] notify⟩

/-- One inbound event of the modelled handler surface, with the
membership-oracle answer and send outcomes it consumed. -/
inductive Op where
  | ensure (id : Nat) (username : Option String) (referredBy : Option Nat)
  | verify (id : Nat) (isMember : Bool) (o1 o2 o3 : SendOutcome)
  | daily (id : Nat) (now : Nat)
  | withdrawAmount (id : Nat) (text : Option String) (now : Nat)
  | resolve (requestId : Nat) (status : String) (o : SendOutcome)
  | moderateBan (id : Nat) (banned : Bool) (o : SendOutcome)

/-- The store after one inbound event: each handler first re-fetches
the acting user from the store (ensure_user), so the per-event user
object is the stored row. -/
def applyOp (s : Settings) (db : Db) : Op → Db
  | Op.ensure id un ref =>
      match ensureUserRecord db id un ref with
      | some (_, _, d) => d
      | none => db
  | Op.verify id m o1 o2 o3 =>
      match db.getUser id with
      | some u => (verifyAndActivate db u s m o1 o2 o3).db
      | none => db
  | Op.daily id now =>
      match db.getUser id with
      | some u => (dailyBonus db u s now).1
      | none => db
  | Op.withdrawAmount id text now =>
      match db.getUser id with
      | some u => (processWithdrawAmount db u s text now).db
      | none => db
  | Op.resolve rid st o => (updateWithdrawalStatus db rid st o).db
  | Op.moderateBan id b o => (setBanStatusAction db id b o).db

/-- A concrete reachable run under the default configuration: user 2
starts the bot, user 1 starts it through the deep link ref2, user 1
subscribes (start bonus 3, referral bonus 3 to user 2), claims the
daily bonus on twelve consecutive days reaching balance 15, withdraws
the full 15 leaving balance 0, and then unsubscribes. The oracle
answers member until the last event and all sends are delivered. -/
def c1Trace : Db :=
  let s := defaultSettings
  let d1 := applyOp s emptyDb (Op.ensure 2 none none)
  let d2 := applyOp s d1 (Op.ensure 1 none (parseStartReferrer "ref2" 1))
  let d3 := applyOp s d2 (Op.verify 1 true none none none)
  let d4 := (List.range 12).foldl
    (fun d k => applyOp s d (Op.daily 1 (k * 86400))) d3
  let d5 := applyOp s d4 (Op.withdrawAmount 1 (some "15") (11 * 86400))
  applyOp s d5 (Op.verify 1 false none none none)

/-
  Helper lemmas about the store primitives.
-/

theorem find_map_key {α : Type} (key : α → Nat) (g : α → α)
    (hg : ∀ a, key (g a) = key a) (l : List α) (q : Nat) :
    (l.map g).find? (fun a => decide (key a = q)) =
      (l.find? (fun a => decide (key a = q))).map g := by
  have hp : ((fun a => decide (key a = q)) ∘ g) = (fun a => decide (key a = q)) := by
    funext a
    simp [Function.comp, hg]
  rw [List.find?_map, hp]

theorem getUser_tid {db : Db} {j : Nat} {u : User} (h : db.getUser j = some u) :
    u.telegramId = j := by
  unfold Db.getUser at h
  have := List.find?_some h
  simpa using this

theorem getWithdrawal_id {db : Db} {q : Nat} {w : WithdrawalRequest}
    (h : db.getWithdrawal q = some w) : w.id = q := by
  unfold Db.getWithdrawal at h
  have := List.find?_some h
  simpa using this

theorem getUser_updateUser (db : Db) (i j : Nat) (f : User → User)
    (hf : ∀ u, (f u).telegramId = u.telegramId) :
    (db.updateUser i f).getUser j =
      (db.getUser j).map (fun u => if u.telegramId = i then f u else u) := by
  show (db.users.map _).find? _ = (db.users.find? _).map _
  exact find_map_key User.telegramId _
    (fun u => by by_cases h : u.telegramId = i <;> simp [h, hf]) _ _

theorem getUser_updateBalance (db : Db) (i j : Nat) (d : Int) :
    (db.updateBalance i d).getUser j =
      (db.getUser j).map
        (fun u => if u.telegramId = i then { u with balance := u.balance + d }
                  else u) :=
  getUser_updateUser db i j _ (fun _ => rfl)

theorem getUser_setSubscription (db : Db) (i j : Nat) (b : Bool) :
    (db.setSubscription i b).getUser j =
      (db.getUser j).map
        (fun u => if u.telegramId = i then { u with isSubscribed := b } else u) :=
  getUser_updateUser db i j _ (fun _ => rfl)

theorem getUser_setRewardClaimed (db : Db) (i j : Nat) (b : Bool) :
    (db.setRewardClaimed i b).getUser j =
      (db.getUser j).map
        (fun u => if u.telegramId = i then { u with rewardClaimed := b } else u) :=
  getUser_updateUser db i j _ (fun _ => rfl)

theorem getUser_setStartBonusClaimed (db : Db) (i j : Nat) (b : Bool) :
    (db.setStartBonusClaimed i b).getUser j =
      (db.getUser j).map
        (fun u => if u.telegramId = i then { u with startBonusClaimed := b }
                  else u) :=
  getUser_updateUser db i j _ (fun _ => rfl)

theorem getUser_setLastDailyBonus (db : Db) (i j : Nat) (ts : Option Nat) :
    (db.setLastDailyBonus i ts).getUser j =
      (db.getUser j).map
        (fun u => if u.telegramId = i then { u with lastDailyBonus := ts }
                  else u) :=
  getUser_updateUser db i j _ (fun _ => rfl)

theorem getUser_updateUsername (db : Db) (i j : Nat) (un : Option String) :
    (db.updateUsername i un).getUser j =
      (db.getUser j).map
        (fun u => if u.telegramId = i then { u with username := un } else u) :=
  getUser_updateUser db i j _ (fun _ => rfl)

theorem getUser_setBanFlag (db : Db) (i j : Nat) (b : Bool) :
    (db.setBanFlag i b).getUser j =
      (db.getUser j).map
        (fun u => if u.telegramId = i then { u with isBanned := b } else u) :=
  getUser_updateUser db i j _ (fun _ => rfl)

theorem getUser_assignReferrer (db : Db) (i j : Nat) (ref : Option Nat) :
    (db.assignReferrer i ref).getUser j =
      (db.getUser j).map
        (fun u => if u.telegramId = i ∧ u.referredBy = none
                  then { u with referredBy := ref } else u) := by
  show (db.users.map _).find? _ = (db.users.find? _).map _
  exact find_map_key User.telegramId _
    (fun u => by by_cases h : u.telegramId = i ∧ u.referredBy = none <;> simp [h]) _ _

theorem createUser_present {db : Db} {i : Nat} {v : Int} {ref : Option Nat}
    {un : Option String} (h : (db.getUser i).isSome) :
    db.createUser i v ref un = db := by
  simp [Db.createUser, h]

theorem getUser_createUser_new {db : Db} {i : Nat} {v : Int} {ref : Option Nat}
    {un : Option String} (h : db.getUser i = none) :
    (db.createUser i v ref un).getUser i =
      some ⟨i, v, ref, false, false, none, un, false, decide (0 < v)⟩ := by
  unfold Db.createUser
  rw [h]
  simp only [Option.isSome_none, Bool.false_eq_true, if_false]
  show (db.users ++ [_]).find? _ = _
  rw [List.find?_append]
  unfold Db.getUser at h
  rw [h]
  simp

theorem getUser_createUser_other {db : Db} {i j : Nat} {v : Int}
    {ref : Option Nat} {un : Option String} (hij : j ≠ i) :
    (db.createUser i v ref un).getUser j = db.getUser j := by
  unfold Db.createUser
  by_cases h : (db.getUser i).isSome
  · simp [h]
  · simp only [h, if_false, Bool.false_eq_true]
    show (db.users ++ [_]).find? _ = db.users.find? _
    rw [List.find?_append]
    have : ([(⟨i, v, ref, false, false, none, un, false,
        decide (0 < v)⟩ : User)].find? (fun u => decide (u.telegramId = j))) = none := by
      simp [Ne.symm hij]
    rw [this]
    simp

theorem getUser_addWithdrawal (db : Db) (i j : Nat) (a : Int) (now : Nat) :
    (db.addWithdrawal i a now).getUser j = db.getUser j := rfl

theorem getUser_setWithdrawalStatus (db : Db) (rid j : Nat) (st : String) :
    (db.setWithdrawalStatus rid st).getUser j = db.getUser j := rfl

theorem getWithdrawal_setWithdrawalStatus (db : Db) (rid q : Nat) (st : String) :
    (db.setWithdrawalStatus rid st).getWithdrawal q =
      (db.getWithdrawal q).map
        (fun w => if w.id = rid then { w with status := st } else w) := by
  show (db.withdrawals.map _).find? _ = (db.withdrawals.find? _).map _
  exact find_map_key WithdrawalRequest.id _
    (fun w => by by_cases h : w.id = rid <;> simp [h]) _ _

theorem getWithdrawal_updateUser (db : Db) (i : Nat) (f : User → User) (q : Nat) :
    (db.updateUser i f).getWithdrawal q = db.getWithdrawal q := rfl

theorem getWithdrawal_addWithdrawal_fresh {db : Db} {i : Nat} {a : Int}
    {now : Nat} (h : ∀ w ∈ db.withdrawals, w.id ≠ db.nextWithdrawalId) :
    (db.addWithdrawal i a now).getWithdrawal db.nextWithdrawalId =
      some ⟨db.nextWithdrawalId, i, a, "pending", now⟩ := by
  unfold Db.addWithdrawal Db.getWithdrawal
  show (db.withdrawals ++ [_]).find? _ = _
  rw [List.find?_append]
  have hn : db.withdrawals.find?
      (fun w => decide (w.id = db.nextWithdrawalId)) = none := by
    rw [List.find?_eq_none]
    intro w hw
    simpa using h w hw
  rw [hn]
  simp

/-- Claim C9: resolving a withdrawal request mutates only the status
field of the targeted request row: every user row is untouched (so no
refund on rejection), the AUTOINCREMENT counter is untouched, and every
withdrawal row keeps its id, accountId, amount and createdAt. -/
theorem c9_resolution_frame (db : Db) (rid : Nat) (st : String)
    (o : SendOutcome) (j q : Nat) :
    ((updateWithdrawalStatus db rid st o).db.getUser j = db.getUser j) ∧
    ((updateWithdrawalStatus db rid st o).db.getWithdrawal q =
      (db.getWithdrawal q).map
        (fun w => if w.id = rid then { w with status := st } else w)) ∧
    ((updateWithdrawalStatus db rid st o).db.nextWithdrawalId =
      db.nextWithdrawalId) ∧
    (∀ w w2, db.getWithdrawal q = some w →
      (updateWithdrawalStatus db rid st o).db.getWithdrawal q = some w2 →
      w2.telegramId = w.telegramId ∧ w2.amount = w.amount ∧
        w2.createdAt = w.createdAt) := by
  have hmap : (updateWithdrawalStatus db rid st o).db.getWithdrawal q =
      (db.getWithdrawal q).map
        (fun w => if w.id = rid then { w with status := st } else w) := by
    unfold updateWithdrawalStatus
    cases hr : db.getWithdrawal rid with
    | none =>
        simp only
        cases hq : db.getWithdrawal q with
        | none => simp
        | some w =>
            have hw : w.id = q := getWithdrawal_id hq
            by_cases hqr : q = rid

            · subst hqr
              rw [hq] at hr
              exact absurd hr (by simp)
            · simp [hw, hqr]
    | some req =>
        simp only
        exact getWithdrawal_setWithdrawalStatus db rid q st
  have huser : (updateWithdrawalStatus db rid st o).db.getUser j =
      db.getUser j := by
    unfold updateWithdrawalStatus
    cases hr : db.getWithdrawal rid <;> simp [Db.setWithdrawalStatus, Db.getUser]
  have hnext : (updateWithdrawalStatus db rid st o).db.nextWithdrawalId =
      db.nextWithdrawalId := by
    unfold updateWithdrawalStatus
    cases hr : db.getWithdrawal rid <;> simp [Db.setWithdrawalStatus]
  refine ⟨huser, hmap, hnext, ?_⟩
  intro w w2 hq hq2
  rw [hmap, hq] at hq2
  simp only [Option.map_some'] at hq2
  by_cases hwr : w.id = rid
  · rw [if_pos hwr] at hq2
    cases hq2
    exact ⟨rfl, rfl, rfl⟩
  · rw [if_neg hwr] at hq2
    cases hq2
    exact ⟨rfl, rfl, rfl⟩

/-- A store holding a single already resolved withdrawal request:
id 1, owned by account 7, amount 15, status paid. -/
def c4db : Db := ⟨[], [⟨1, 7, 15, "paid", 0⟩], 2⟩

/-- Claim C4 is false on the code: resolving request 1, whose status is
already paid, with the rejected outcome changes the stored status and
attempts a fresh notification to the requester, instead of being
refused or a no-op with no notification. -/
theorem c4_counterexample :
    ((updateWithdrawalStatus c4db 1 "rejected" none).db.getWithdrawal 1).map
        WithdrawalRequest.status = some "rejected" ∧
    ((updateWithdrawalStatus c4db 1 "rejected" none).db.getWithdrawal 1).map
        WithdrawalRequest.status ≠
      (c4db.getWithdrawal 1).map WithdrawalRequest.status ∧
    (updateWithdrawalStatus c4db 1 "rejected" none).sends = [7] ∧
    (updateWithdrawalStatus c4db 1 "rejected" none).refused = false := by
  decide

/-- Claim C4 (amended): resolving an unknown request id is refused with
no mutation and no notification; resolving any existing id, whatever
its current status, unconditionally overwrites the status with the
requested one and attempts exactly one notification to the requester —
the pending-to-terminal transition is not protected against
re-resolution. -/
theorem c4_resolution_overwrites (db : Db) (rid : Nat) (st : String)
    (o : SendOutcome) :
    (db.getWithdrawal rid = none →
      updateWithdrawalStatus db rid st o = ⟨db, [], true, none⟩) ∧
    (∀ w, db.getWithdrawal rid = some w →
      (updateWithdrawalStatus db rid st o).db.getWithdrawal rid =
          some { w with status := st } ∧
      (updateWithdrawalStatus db rid st o).sends = [w.telegramId] ∧
      (updateWithdrawalStatus db rid st o).refused = false) := by
  constructor
  · intro h
    unfold updateWithdrawalStatus
    rw [h]
  · intro w h
    have he : updateWithdrawalStatus db rid st o =
        ⟨db.setWithdrawalStatus rid st, [w.telegramId], false,
          suppressSet [NetErr.badRequest, NetErr.forbidden] o⟩ := by
      unfold updateWithdrawalStatus
      rw [h]
    rw [he]
    refine ⟨?_, rfl, rfl⟩
    show (db.setWithdrawalStatus rid st).getWithdrawal rid = _
    rw [getWithdrawal_setWithdrawalStatus, h]
    have hw : w.id = rid := getWithdrawal_id h
    simp [hw]

theorem c4_witness :
    (c4db.getWithdrawal 1 = some ⟨1, 7, 15, "paid", 0⟩) ∧
    ((updateWithdrawalStatus c4db 1 "paid" (some NetErr.forbidden)).db.getWithdrawal 1 =
        some ⟨1, 7, 15, "paid", 0⟩ ∧
      (updateWithdrawalStatus c4db 1 "paid" (some NetErr.forbidden)).sends = [7] ∧
      (updateWithdrawalStatus c4db 1 "paid" (some NetErr.forbidden)).refused = false) :=
  ⟨by decide,
    (c4_resolution_overwrites c4db 1 "paid" (some NetErr.forbidden)).2
      ⟨1, 7, 15, "paid", 0⟩ (by decide)⟩

theorem c9_witness :
    ((updateWithdrawalStatus c4db 1 "rejected" none).db.getUser 7 =
      c4db.getUser 7) ∧
    ((⟨1, 7, 15, "rejected", 0⟩ : WithdrawalRequest).telegramId =
        (⟨1, 7, 15, "paid", 0⟩ : WithdrawalRequest).telegramId ∧
      (⟨1, 7, 15, "rejected", 0⟩ : WithdrawalRequest).amount =
        (⟨1, 7, 15, "paid", 0⟩ : WithdrawalRequest).amount ∧
      (⟨1, 7, 15, "rejected", 0⟩ : WithdrawalRequest).createdAt =
        (⟨1, 7, 15, "paid", 0⟩ : WithdrawalRequest).createdAt) :=
  ⟨(c9_resolution_frame c4db 1 "rejected" none 7 1).1,
    (c9_resolution_frame c4db 1 "rejected" none 7 1).2.2.2
      ⟨1, 7, 15, "paid", 0⟩ ⟨1, 7, 15, "rejected", 0⟩
      (by decide) (by decide)⟩

theorem suppressSet_badRequest_only (o : SendOutcome) :
    suppressSet [NetErr.badRequest] o = none ∨ o = some NetErr.forbidden := by
  rcases o with _ | e
  · left
    rfl
  · cases e
    · left
      simp [suppressSet]
    · right
      rfl

theorem suppressSet_both (o : SendOutcome) :
    suppressSet [NetErr.badRequest, NetErr.forbidden] o = none := by
  rcases o with _ | e
  · rfl
  · cases e <;> simp [suppressSet]

/-- A store with one user whose activation will attempt a referral
notification: id 1, referred by 2, reward not yet claimed, start bonus
already claimed. -/
def c8db : Db := ⟨[⟨1, 0, some 2, false, false, none, none, false, true⟩], [], 1⟩

def c8user : User := ⟨1, 0, some 2, false, false, none, none, false, true⟩

/-- Claim C8 is false on the code: when the referral notification sent
during subscription activation fails because the referrer has blocked
the bot (TelegramForbiddenError), the exception is NOT caught — the
suppress block there names only TelegramBadRequest — and escapes to the
caller. -/
theorem c8_counterexample :
    (activateSubscription c8db c8user defaultSettings
        (some NetErr.forbidden)).escaped = some NetErr.forbidden ∧
    (some NetErr.forbidden : Option NetErr) ≠ none := by
  decide

/-- Claim C8 (amended): the store and user-object mutations of
activation and unsubscription never depend on the notification outcome
(the committed mutation stands even when an exception escapes); ban
notices and withdrawal-resolution notifications suppress both
TelegramBadRequest and TelegramForbiddenError, so they never escalate;
but the award and reversal notifications suppress only
TelegramBadRequest, so only a forbidden outcome (blocked bot) can
escalate from them. -/
theorem c8_delivery_failures (db : Db) (u : User) (s : Settings)
    (o o1 o2 : SendOutcome) (rid uid : Nat) (st : String) (b : Bool) :
    ((activateSubscription db u s o).db = (activateSubscription db u s none).db) ∧
    ((activateSubscription db u s o).user =
      (activateSubscription db u s none).user) ∧
    ((activateSubscription db u s o).escaped = none ∨
      o = some NetErr.forbidden) ∧
    ((handleUnsubscription db u s o1 o2).db =
      (handleUnsubscription db u s none none).db) ∧
    ((handleUnsubscription db u s o1 o2).user =
      (handleUnsubscription db u s none none).user) ∧
    ((handleUnsubscription db u s o1 o2).escaped = none ∨
      o1 = some NetErr.forbidden ∨ o2 = some NetErr.forbidden) ∧
    ((setBanStatusAction db uid b o).escaped = none) ∧
    ((updateWithdrawalStatus db rid st o).escaped = none) := by
  refine ⟨?_, ?_, ?_, ?_, ?_, ?_, ?_, ?_⟩
  · simp only [activateSubscription]
    split <;> split <;> rfl
  · simp only [activateSubscription]
    split <;> split <;> rfl
  · simp only [activateSubscription]
    split <;> split <;>
      first
      | exact suppressSet_badRequest_only o
      | (left; rfl)
  · simp only [handleUnsubscription]
    split
    · split <;> split <;> rfl
    · rfl
  · simp only [handleUnsubscription]
    split
    · split <;> split <;> rfl
    · rfl
  · simp only [handleUnsubscription]
    split
    · split
      · rcases suppressSet_badRequest_only o2 with h2 | h2
        · left
          exact h2
        · right
          right
          exact h2
      · rename_i hneg
        rcases suppressSet_badRequest_only o1 with h1 | h1
        · exact absurd h1 hneg
        · right
          left
          exact h1
    · left
      rfl
  · unfold setBanStatusAction
    split
    · rfl
    · split
      · rfl
      · exact suppressSet_both o
  · unfold updateWithdrawalStatus
    split
    · rfl
    · exact suppressSet_both o

theorem activate_user_isSubscribed (db : Db) (u : User) (s : Settings)
    (o : SendOutcome) :
    (activateSubscription db u s o).user.isSubscribed = true := by
  simp only [activateSubscription]
  split <;> split <;> rfl

theorem unsub_user_isSubscribed (db : Db) (u : User) (s : Settings)
    (n1 n2 : SendOutcome) :
    (handleUnsubscription db u s n1 n2).user.isSubscribed = false := by
  simp only [handleUnsubscription]
  split
  · split <;> rfl
  · rfl

/-- Claim C6: the verify-and-activate reconciliation is idempotent —
running it a second time on the store and user object produced by the
first run, with the same membership-oracle answer, changes neither the
store nor the user object, attempts no notification, and raises
nothing; in particular no credit or debit (start bonus, referral award,
referral reversal) is applied twice. -/
theorem c6_verify_idempotent (db : Db) (u : User) (s : Settings) (m : Bool)
    (o1 o2 o3 p1 p2 p3 : SendOutcome) :
    ((verifyAndActivate (verifyAndActivate db u s m o1 o2 o3).db
        (verifyAndActivate db u s m o1 o2 o3).user s m p1 p2 p3).db =
      (verifyAndActivate db u s m o1 o2 o3).db) ∧
    ((verifyAndActivate (verifyAndActivate db u s m o1 o2 o3).db
        (verifyAndActivate db u s m o1 o2 o3).user s m p1 p2 p3).user =
      (verifyAndActivate db u s m o1 o2 o3).user) ∧
    ((verifyAndActivate (verifyAndActivate db u s m o1 o2 o3).db
        (verifyAndActivate db u s m o1 o2 o3).user s m p1 p2 p3).sends = []) ∧
    ((verifyAndActivate (verifyAndActivate db u s m o1 o2 o3).db
        (verifyAndActivate db u s m o1 o2 o3).user s m p1 p2 p3).escaped =
      none) := by
  cases m with
  | false =>
      cases hs : u.isSubscribed with
      | true =>
          refine ⟨?_, ?_, ?_, ?_⟩ <;>
            simp [verifyAndActivate, hs, unsub_user_isSubscribed]
      | false =>
          refine ⟨?_, ?_, ?_, ?_⟩ <;>
            simp [verifyAndActivate, hs]
  | true =>
      cases hs : u.isSubscribed with
      | true =>
          refine ⟨?_, ?_, ?_, ?_⟩ <;>
            simp [verifyAndActivate, hs]
      | false =>
          refine ⟨?_, ?_, ?_, ?_⟩ <;>
            simp [verifyAndActivate, hs, activate_user_isSubscribed]

/-- Claim C7: daily-bonus claiming — when last_daily_bonus is unset the
credit happens and the stamp is set; within the 24-hour window nothing
changes and the reported wait is the exact remainder split into whole
hours and minutes; at or past 24 hours the credit happens again. -/
theorem c7_daily_bonus (db : Db) (u : User) (s : Settings) (now t : Nat) :
    (u.lastDailyBonus = none →
      (dailyBonus db u s now).2 = DailyOutcome.credited ∧
      ∀ j, (dailyBonus db u s now).1.getUser j =
        (db.getUser j).map
          (fun v => if v.telegramId = u.telegramId then
            { v with balance := v.balance + s.dailyBonus,
                     lastDailyBonus := some now }
          else v)) ∧
    (u.lastDailyBonus = some t → t ≤ now → now - t < 86400 →
      (dailyBonus db u s now).1 = db ∧
      ∃ hh mm, (dailyBonus db u s now).2 = DailyOutcome.refused hh mm ∧
        hh * 3600 + mm * 60 ≤ 86400 - (now - t) ∧
        86400 - (now - t) < hh * 3600 + (mm + 1) * 60 ∧ mm < 60) ∧
    (u.lastDailyBonus = some t → 86400 ≤ now - t →
      (dailyBonus db u s now).2 = DailyOutcome.credited ∧
      ∀ j, (dailyBonus db u s now).1.getUser j =
        (db.getUser j).map
          (fun v => if v.telegramId = u.telegramId then
            { v with balance := v.balance + s.dailyBonus,
                     lastDailyBonus := some now }
          else v)) := by
  refine ⟨?_, ?_, ?_⟩
  · intro h
    unfold dailyBonus
    rw [h]
    refine ⟨rfl, ?_⟩
    intro j
    show ((db.updateBalance u.telegramId s.dailyBonus).setLastDailyBonus
        u.telegramId (some now)).getUser j = _
    rw [getUser_setLastDailyBonus, getUser_updateBalance]
    cases hv : db.getUser j with
    | none => rfl
    | some v =>
        simp only [Option.map_some']
        by_cases ht : v.telegramId = u.telegramId <;> simp [ht]
  · intro h ht hlt
    have he : dailyBonus db u s now =
        (db, DailyOutcome.refused ((86400 - (now - t)) / 3600)
          (((86400 - (now - t)) % 3600) / 60)) := by
      unfold dailyBonus
      rw [h]
      simp [hlt]
    rw [he]
    refine ⟨rfl, (86400 - (now - t)) / 3600,
      ((86400 - (now - t)) % 3600) / 60, rfl, ?_, ?_, ?_⟩ <;>
      · have e1 := Nat.div_add_mod (86400 - (now - t)) 3600
        have e2 := Nat.div_add_mod ((86400 - (now - t)) % 3600) 60
        have l1 : (86400 - (now - t)) % 3600 < 3600 :=
          Nat.mod_lt _ (by norm_num)
        have l2 : (86400 - (now - t)) % 3600 % 60 < 60 :=
          Nat.mod_lt _ (by norm_num)
        omega
  · intro h hge
    have he : dailyBonus db u s now =
        ((db.updateBalance u.telegramId s.dailyBonus).setLastDailyBonus
          u.telegramId (some now), DailyOutcome.credited) := by
      unfold dailyBonus
      rw [h]
      simp only [if_neg (by omega : ¬ now - t < 86400)]
    rw [he]
    refine ⟨rfl, ?_⟩
    intro j
    show ((db.updateBalance u.telegramId s.dailyBonus).setLastDailyBonus
        u.telegramId (some now)).getUser j = _
    rw [getUser_setLastDailyBonus, getUser_updateBalance]
    cases hv : db.getUser j with
    | none => rfl
    | some v =>
        simp only [Option.map_some']
        by_cases ht : v.telegramId = u.telegramId <;> simp [ht]

/-- A fresh subscribed account that has never claimed the daily bonus. -/
def c7base : User := ⟨1, 0, none, true, false, none, none, false, true⟩

def c7db0 : Db := ⟨[c7base], [], 1⟩

/-- The store after the first daily-bonus claim at time 0. -/
def c7db1 : Db := (dailyBonus c7db0 c7base defaultSettings 0).1

/-- The account as re-fetched after the first claim. -/
def c7user1 : User := (c7db1.getUser 1).getD c7base

theorem c7_witness :
    ((dailyBonus c7db0 c7base defaultSettings 0).2 = DailyOutcome.credited) ∧
    ((dailyBonus c7db1 c7user1 defaultSettings 86340).2 =
      DailyOutcome.refused 0 1) ∧
    ((dailyBonus c7db1 c7user1 defaultSettings 86400).2 =
      DailyOutcome.credited) ∧
    ((dailyBonus c7db1 c7user1 defaultSettings 86340).1 = c7db1 ∧
      ∃ hh mm, (dailyBonus c7db1 c7user1 defaultSettings 86340).2 =
          DailyOutcome.refused hh mm ∧
        hh * 3600 + mm * 60 ≤ 86400 - (86340 - 0) ∧
        86400 - (86340 - 0) < hh * 3600 + (mm + 1) * 60 ∧ mm < 60) :=
  ⟨by decide, by decide, by decide,
    (c7_daily_bonus c7db1 c7user1 defaultSettings 86340 0).2.1
      (by decide) (by decide) (by decide)⟩

/-- The concrete scenario account of claim C3: balance 20, subscribed,
not banned, start bonus already claimed. -/
def c3user : User := ⟨1, 20, none, true, false, none, none, false, true⟩

def c3db : Db := ⟨[c3user], [], 1⟩

/-- Claim C3 is false as stated: the input "-5" (and likewise "0") does
not parse as a positive integer, so the claim prescribes a format
error, but int() in the source parses any signed integer — the input
falls through to the minimum check and the user gets the
minimum-amount error, not the format error. -/
theorem c3_counterexample :
    processWithdrawAmount c3db c3user defaultSettings (some "-5") 0 =
      ⟨c3db, false, WithdrawOutcome.minError⟩ ∧
    processWithdrawAmount c3db c3user defaultSettings (some "0") 0 =
      ⟨c3db, false, WithdrawOutcome.minError⟩ ∧
    WithdrawOutcome.minError ≠ WithdrawOutcome.formatError := by
  decide

/-- Claim C3 (amended): validation proceeds in order: (a) the text must
parse as an integer — any sign accepted — else a format error and no
state change; (b) the amount must reach minWithdrawal, else a
minimum-amount error (the branch that also catches non-positive
amounts whenever minWithdrawal is positive); (c) the amount must not
exceed the balance, else an insufficient-funds error; on success
exactly the amount is debited, a pending request for it is created
with a fresh id, and the pending-input state is cleared. The concrete
scenario holds: with balance 20 and minWithdrawal 15, amount 10 is
refused, 25 is refused, 20 succeeds leaving balance 0 and a pending
request for 20. -/
theorem c3_amount_validation (db : Db) (u : User) (s : Settings)
    (text : Option String) (now : Nat) :
    (text.bind pyParseInt = none →
      processWithdrawAmount db u s text now =
        ⟨db, false, WithdrawOutcome.formatError⟩) ∧
    (∀ a, text.bind pyParseInt = some a → a < s.minWithdrawal →
      processWithdrawAmount db u s text now =
        ⟨db, false, WithdrawOutcome.minError⟩) ∧
    (∀ a, text.bind pyParseInt = some a → ¬ a < s.minWithdrawal →
      u.balance < a →
      processWithdrawAmount db u s text now =
        ⟨db, false, WithdrawOutcome.insufficientError⟩) ∧
    (∀ a, text.bind pyParseInt = some a → ¬ a < s.minWithdrawal →
      ¬ u.balance < a →
      (processWithdrawAmount db u s text now).outcome =
          WithdrawOutcome.success ∧
      (processWithdrawAmount db u s text now).stateCleared = true ∧
      ((processWithdrawAmount db u s text now).db.getUser u.telegramId =
        (db.getUser u.telegramId).map
          (fun v => if v.telegramId = u.telegramId then
            { v with balance := v.balance - a } else v)) ∧
      ((∀ w ∈ db.withdrawals, w.id ≠ db.nextWithdrawalId) →
        (processWithdrawAmount db u s text now).db.getWithdrawal
            db.nextWithdrawalId =
          some ⟨db.nextWithdrawalId, u.telegramId, a, "pending", now⟩)) ∧
    (withdrawalRequestEntry c3user defaultSettings = true) ∧
    (processWithdrawAmount c3db c3user defaultSettings (some "10") 0 =
      ⟨c3db, false, WithdrawOutcome.minError⟩) ∧
    (processWithdrawAmount c3db c3user defaultSettings (some "25") 0 =
      ⟨c3db, false, WithdrawOutcome.insufficientError⟩) ∧
    ((processWithdrawAmount c3db c3user defaultSettings
        (some "20") 0).outcome = WithdrawOutcome.success) ∧
    (((processWithdrawAmount c3db c3user defaultSettings
        (some "20") 0).db.getUser 1).map User.balance = some 0) ∧
    ((processWithdrawAmount c3db c3user defaultSettings
        (some "20") 0).db.getWithdrawal 1 = some ⟨1, 1, 20, "pending", 0⟩) ∧
    ((processWithdrawAmount c3db c3user defaultSettings
        (some "20") 0).stateCleared = true) := by
  refine ⟨?_, ?_, ?_, ?_, by decide, by decide, by decide, by decide,
    by decide, by decide, by decide⟩
  · intro h
    unfold processWithdrawAmount
    rw [h]
  · intro a ha hlt
    unfold processWithdrawAmount
    rw [ha]
    simp [hlt]
  · intro a ha h1 h2
    unfold processWithdrawAmount
    rw [ha]
    simp [h1, h2]
  · intro a ha h1 h2
    have he : processWithdrawAmount db u s text now =
        ⟨(db.updateBalance u.telegramId (-a)).addWithdrawal
            u.telegramId a now, true, WithdrawOutcome.success⟩ := by
      unfold processWithdrawAmount
      rw [ha]
      simp [h1, h2]
    rw [he]
    refine ⟨rfl, rfl, ?_, ?_⟩
    · show ((db.updateBalance u.telegramId (-a)).addWithdrawal
          u.telegramId a now).getUser u.telegramId = _
      rw [getUser_addWithdrawal, getUser_updateBalance]
      cases hv : db.getUser u.telegramId with
      | none => rfl
      | some v =>
          simp only [Option.map_some']
          by_cases ht : v.telegramId = u.telegramId <;>
            simp [ht, sub_eq_add_neg]
    · intro hfresh
      exact getWithdrawal_addWithdrawal_fresh hfresh

theorem c3_witness :
    ((some "20" : Option String).bind pyParseInt = some 20) ∧
    (¬ (20 : Int) < defaultSettings.minWithdrawal) ∧
    (¬ c3user.balance < (20 : Int)) ∧
    ((processWithdrawAmount c3db c3user defaultSettings (some "20") 0).outcome =
      WithdrawOutcome.success) ∧
    ((processWithdrawAmount c3db c3user defaultSettings
        (some "20") 0).stateCleared = true) ∧
    ((processWithdrawAmount c3db c3user defaultSettings
        (some "20") 0).db.getWithdrawal c3db.nextWithdrawalId =
      some ⟨c3db.nextWithdrawalId, c3user.telegramId, 20, "pending", 0⟩) := by
  have h := (c3_amount_validation c3db c3user defaultSettings
    (some "20") 0).2.2.2.1 20 (by decide) (by decide) (by decide)
  exact ⟨by decide, by decide, by decide, h.1, h.2.1, h.2.2.2 (by decide)⟩

theorem ensure_existing (db : Db) (id : Nat) (un : Option String)
    (ref : Option Nat) (u0 : User) (h : db.getUser id = some u0) :
    ensureUserRecord db id un ref =
      (let assign : Bool := optNatTruthy ref &&
        decide (u0.referredBy = none) && decide (ref ≠ some id)
      let u1 := if assign then { u0 with referredBy := ref } else u0
      let db1 := if assign then db.assignReferrer id ref else db
      if u1.username ≠ un then
        some ({ u1 with username := un }, false, db1.updateUsername id un)
      else some (u1, false, db1)) := by
  unfold ensureUserRecord
  rw [h]

/-- Claim C5 is false as stated: on the creation path ensure stores the
given referrer without any self check — ensuring a fresh id 5 with
referrer 5 creates the account with referredBy = 5, not null. The self
check lives only in the cmd_start deep-link parsing and in the
existing-account branch of ensure. -/
theorem c5_counterexample :
    (ensureUserRecord emptyDb 5 none (some 5)).map
        (fun r => r.1.referredBy) = some (some 5) ∧
    (some 5 : Option Nat) ≠ none := by
  decide

/-- Claim C5 (amended): for an existing account, ensure with the
account's own id as referrer leaves referredBy unchanged, and an
already-set referredBy is never overwritten whatever referrer is
passed; the deep-link parser of cmd_start never yields the caller's own
id, so accounts created through the start command never store a
self-referral; but the creation path of ensure itself stores the
referrer argument verbatim, self-referral included. -/
theorem c5_referral_rules :
    (∀ db id un u0 r, db.getUser id = some u0 →
      ensureUserRecord db id un (some id) = some r →
      r.1.referredBy = u0.referredBy ∧
      (r.2.2.getUser id).map User.referredBy = some u0.referredBy) ∧
    (∀ db id un ref u0 x r, db.getUser id = some u0 →
      u0.referredBy = some x →
      ensureUserRecord db id un ref = some r →
      r.1.referredBy = some x ∧
      (r.2.2.getUser id).map User.referredBy = some (some x)) ∧
    (∀ args id, parseStartReferrer args id ≠ some id) ∧
    (∀ db id un args r, db.getUser id = none →
      ensureUserRecord db id un (parseStartReferrer args id) = some r →
      r.1.referredBy = parseStartReferrer args id ∧
      r.1.referredBy ≠ some id) := by
  have hp3 : ∀ args id, parseStartReferrer args id ≠ some id := by
    intro args id h
    unfold parseStartReferrer at h
    split at h
    · split at h
      · exact absurd h (by simp)
      · rename_i hne
        exact hne (Option.some.inj h)
    · exact absurd h (by simp)
  refine ⟨?_, ?_, hp3, ?_⟩
  · intro db id un u0 r h hens
    have he : ensureUserRecord db id un (some id) =
        if u0.username ≠ un then
          some ({ u0 with username := un }, false, db.updateUsername id un)
        else some (u0, false, db) := by
      unfold ensureUserRecord
      rw [h]
      simp
    rw [he] at hens
    by_cases hun : u0.username = un
    · rw [if_neg (by simp [hun])] at hens
      cases Option.some.inj hens
      exact ⟨rfl, by rw [h]; rfl⟩
    · rw [if_pos (by simp [hun])] at hens
      cases Option.some.inj hens
      refine ⟨rfl, ?_⟩
      show ((db.updateUsername id un).getUser id).map User.referredBy = _
      rw [getUser_updateUsername, h]
      have ht : u0.telegramId = id := getUser_tid h
      simp [ht]
  · intro db id un ref u0 x r h hx hens
    have he : ensureUserRecord db id un ref =
        if u0.username ≠ un then
          some ({ u0 with username := un }, false, db.updateUsername id un)
        else some (u0, false, db) := by
      unfold ensureUserRecord
      rw [h]
      simp [hx]
    rw [he] at hens
    by_cases hun : u0.username = un
    · rw [if_neg (by simp [hun])] at hens
      cases Option.some.inj hens
      refine ⟨hx, ?_⟩
      rw [h]
      simp [hx]
    · rw [if_pos (by simp [hun])] at hens
      cases Option.some.inj hens
      refine ⟨hx, ?_⟩
      show ((db.updateUsername id un).getUser id).map User.referredBy = _
      rw [getUser_updateUsername, h]
      have ht : u0.telegramId = id := getUser_tid h
      simp [ht, hx]
  · intro db id un args r hnone hens
    have he : ensureUserRecord db id un (parseStartReferrer args id) =
        some (⟨id, 0, parseStartReferrer args id, false, false, none, un,
          false, decide ((0 : Int) < 0)⟩, true,
          db.createUser id 0 (parseStartReferrer args id) un) := by
      unfold ensureUserRecord
      simp only [hnone]
      rw [getUser_createUser_new hnone]
      simp
    rw [he] at hens
    cases Option.some.inj hens
    exact ⟨rfl, hp3 args id⟩

theorem c5_witness :
    c3db.getUser 1 = some c3user ∧
    ensureUserRecord c3db 1 none (some 1) = some (c3user, false, c3db) ∧
    (c3user.referredBy = c3user.referredBy ∧
      (c3db.getUser 1).map User.referredBy = some c3user.referredBy) :=
  ⟨by decide, by decide,
    c5_referral_rules.1 c3db 1 none c3user (c3user, false, c3db)
      (by decide) (by decide)⟩

/-- A referee with balance 10 referred by account 2, start bonus
already claimed, reward not yet claimed; the referrer holds balance 0. -/
def c2referee : User := ⟨1, 10, some 2, false, false, none, none, false, true⟩

def c2referrer : User := ⟨2, 0, none, false, false, none, none, false, true⟩

def c2db : Db := ⟨[c2referee, c2referrer], [], 1⟩

def c2afterAward : ActResult :=
  activateSubscription c2db c2referee defaultSettings none

def c2afterReverse : UnsubResult :=
  handleUnsubscription c2afterAward.db c2afterAward.user defaultSettings
    none none

/-- Claim C2 is false on the code: awarding the referral bonus on
activation and then reversing it on unsubscription leaves the REFEREE
at balance 7, not the pre-award 10 — the award credited only the
referrer, yet the reversal debited both parties. The referrer is
restored (0 to 3 to 0) and rewardClaimed ends false. -/
theorem c2_counterexample :
    (c2db.getUser 1).map User.balance = some 10 ∧
    (c2afterReverse.db.getUser 1).map User.balance = some 7 ∧
    some (7 : Int) ≠ some (10 : Int) ∧
    (c2db.getUser 2).map User.balance = some 0 ∧
    (c2afterReverse.db.getUser 2).map User.balance = some 0 ∧
    c2afterReverse.user.rewardClaimed = false := by
  decide

/-- Claim C2 (amended): for an account with a truthy referrer distinct
from itself, reward not yet claimed and start bonus already claimed,
performing the award (activation) followed by the reversal
(unsubscription) restores the REFERRER's balance exactly and leaves
rewardClaimed false, but leaves the REFEREE's balance lower by the
referral-bonus amount: the award credits only the referrer while the
reversal debits both referee and referrer. -/
theorem c2_award_reverse (db : Db) (u : User) (s : Settings) (rid : Nat)
    (o1 o2 o3 : SendOutcome)
    (href : u.referredBy = some rid) (hrid : rid ≠ 0)
    (hne : rid ≠ u.telegramId) (hrc : u.rewardClaimed = false)
    (hsb : u.startBonusClaimed = true) :
    ((handleUnsubscription (activateSubscription db u s o1).db
        (activateSubscription db u s o1).user s o2 o3).db.getUser rid).map
        User.balance = (db.getUser rid).map User.balance ∧
    ((handleUnsubscription (activateSubscription db u s o1).db
        (activateSubscription db u s o1).user s o2 o3).db.getUser
        u.telegramId).map User.balance =
      (db.getUser u.telegramId).map (fun v => v.balance - s.referralBonus) ∧
    (handleUnsubscription (activateSubscription db u s o1).db
        (activateSubscription db u s o1).user s o2 o3).user.rewardClaimed =
      false ∧
    ((handleUnsubscription (activateSubscription db u s o1).db
        (activateSubscription db u s o1).user s o2 o3).db.getUser
        u.telegramId).map User.rewardClaimed =
      (db.getUser u.telegramId).map (fun _ => false) := by
  have ha1 : (activateSubscription db u s o1).db =
      ((db.setSubscription u.telegramId true).updateBalance rid
        s.referralBonus).setRewardClaimed u.telegramId true := by
    simp [activateSubscription, hsb, hrc, href, optNatTruthy, hrid]
  have ha2 : (activateSubscription db u s o1).user =
      { u with isSubscribed := true, rewardClaimed := true } := by
    simp [activateSubscription, hsb, hrc, href, optNatTruthy, hrid]
  have hb1 : (handleUnsubscription (activateSubscription db u s o1).db
      (activateSubscription db u s o1).user s o2 o3).db =
      ((((((db.setSubscription u.telegramId true).updateBalance rid
          s.referralBonus).setRewardClaimed u.telegramId
          true).setSubscription u.telegramId false).updateBalance
          u.telegramId (-s.referralBonus)).updateBalance rid
          (-s.referralBonus)).setRewardClaimed u.telegramId false := by
    rw [ha1, ha2]
    simp [handleUnsubscription, href, optNatTruthy, hrid, apply_ite]
  have hb2 : (handleUnsubscription (activateSubscription db u s o1).db
      (activateSubscription db u s o1).user s o2 o3).user =
      { u with isSubscribed := false, rewardClaimed := false } := by
    rw [ha1, ha2]
    simp [handleUnsubscription, href, optNatTruthy, hrid, apply_ite]
  refine ⟨?_, ?_, ?_, ?_⟩
  · rw [hb1, getUser_setRewardClaimed, getUser_updateBalance,
      getUser_updateBalance, getUser_setSubscription,
      getUser_setRewardClaimed, getUser_updateBalance,
      getUser_setSubscription]
    cases hv : db.getUser rid with
    | none => rfl
    | some v =>
        have ht : v.telegramId = rid := getUser_tid hv
        simp only [Option.map_some']
        simp [ht, hne, Ne.symm hne]
  · rw [hb1, getUser_setRewardClaimed, getUser_updateBalance,
      getUser_updateBalance, getUser_setSubscription,
      getUser_setRewardClaimed, getUser_updateBalance,
      getUser_setSubscription]
    cases hv : db.getUser u.telegramId with
    | none => rfl
    | some v =>
        have ht : v.telegramId = u.telegramId := getUser_tid hv
        simp only [Option.map_some']
        simp [ht, Ne.symm hne, sub_eq_add_neg]
  · rw [hb2]
  · rw [hb1, getUser_setRewardClaimed, getUser_updateBalance,
      getUser_updateBalance, getUser_setSubscription,
      getUser_setRewardClaimed, getUser_updateBalance,
      getUser_setSubscription]
    cases hv : db.getUser u.telegramId with
    | none => rfl
    | some v =>
        have ht : v.telegramId = u.telegramId := getUser_tid hv
        simp only [Option.map_some']
        simp [ht, Ne.symm hne]

theorem c2_witness :
    c2referee.referredBy = some 2 ∧ (2 : Nat) ≠ 0 ∧
    (2 : Nat) ≠ c2referee.telegramId ∧ c2referee.rewardClaimed = false ∧
    c2referee.startBonusClaimed = true ∧
    ((c2afterReverse.db.getUser 2).map User.balance =
        (c2db.getUser 2).map User.balance ∧
      (c2afterReverse.db.getUser c2referee.telegramId).map User.balance =
        (c2db.getUser c2referee.telegramId).map
          (fun v => v.balance - defaultSettings.referralBonus) ∧
      c2afterReverse.user.rewardClaimed = false ∧
      (c2afterReverse.db.getUser c2referee.telegramId).map
          User.rewardClaimed =
        (c2db.getUser c2referee.telegramId).map (fun _ => false)) :=
  ⟨rfl, by decide, by decide, rfl, rfl,
    c2_award_reverse c2db c2referee defaultSettings 2 none none none
      rfl (by decide) (by decide) rfl rfl⟩

/-- All stored balances are nonnegative. -/
def Db.balancesNonneg (db : Db) : Prop := ∀ u ∈ db.users, 0 ≤ u.balance

instance (db : Db) : Decidable db.balancesNonneg :=
  inferInstanceAs (Decidable (∀ u ∈ db.users, 0 ≤ u.balance))

theorem balancesNonneg_updateUser {db : Db} {i : Nat} {f : User → User}
    (hf : ∀ u, 0 ≤ u.balance → 0 ≤ (f u).balance)
    (h : db.balancesNonneg) : (db.updateUser i f).balancesNonneg := by
  intro v hv
  simp only [Db.updateUser, List.mem_map] at hv
  obtain ⟨w, hw, rfl⟩ := hv
  by_cases hwi : w.telegramId = i
  · simp only [if_pos hwi]
    exact hf w (h w hw)
  · simp only [if_neg hwi]
    exact h w hw

theorem balancesNonneg_updateBalance {db : Db} {i : Nat} {d : Int}
    (hd2 : 0 ≤ d) (h : db.balancesNonneg) :
    (db.updateBalance i d).balancesNonneg :=
  balancesNonneg_updateUser
    (fun u hu => by
      show 0 ≤ u.balance + d
      omega) h

theorem balancesNonneg_assignReferrer {db : Db} {i : Nat} {ref : Option Nat}
    (h : db.balancesNonneg) : (db.assignReferrer i ref).balancesNonneg := by
  intro v hv
  simp only [Db.assignReferrer, List.mem_map] at hv
  obtain ⟨w, hw, rfl⟩ := hv
  by_cases hc : w.telegramId = i ∧ w.referredBy = none
  · simp only [if_pos hc]
    exact h w hw
  · simp only [if_neg hc]
    exact h w hw

theorem balancesNonneg_createUser {db : Db} {i : Nat} {v : Int}
    {ref : Option Nat} {un : Option String} (hv : 0 ≤ v)
    (h : db.balancesNonneg) : (db.createUser i v ref un).balancesNonneg := by
  unfold Db.createUser
  split
  · exact h
  · intro w hw
    simp only [List.mem_append, List.mem_singleton] at hw
    rcases hw with hw | rfl
    · exact h w hw
    · exact hv

/-- Claim C1 is false on the code: along a run reachable from an empty
store under the default configuration — register, subscribe, earn the
start bonus, 12 daily bonuses, withdraw the full balance of 15, then
unsubscribe — the reversal of the referral bonus drives the referee
from balance 0 to balance -3, an observable committed negative
balance. -/
theorem c1_counterexample :
    (c1Trace.getUser 1).map User.balance = some (-3) ∧ ((-3 : Int) < 0) := by
  decide

/-- Claim C1 (amended): with nonnegative configured bonus amounts,
every committed mutation EXCEPT the referral-bonus reversal of
_handle_unsubscription preserves nonnegativity of all balances —
including the withdrawal debit, which is guarded by the balance check;
the reversal debits both referee and referrer unguarded and can drive
a balance below zero once intermediate withdrawals have drained it. -/
theorem c1_nonneg_preservation (s : Settings) (db : Db)
    (hs : 0 ≤ s.startBonus) (hr : 0 ≤ s.referralBonus)
    (hd : 0 ≤ s.dailyBonus) (h : db.balancesNonneg) :
    (∀ id un ref r, ensureUserRecord db id un ref = some r →
      r.2.2.balancesNonneg) ∧
    (∀ u o, (activateSubscription db u s o).db.balancesNonneg) ∧
    (∀ u now, (dailyBonus db u s now).1.balancesNonneg) ∧
    (∀ u text now, (∀ v ∈ db.users, v.telegramId = u.telegramId → v = u) →
      (processWithdrawAmount db u s text now).db.balancesNonneg) ∧
    (∀ rid st o, (updateWithdrawalStatus db rid st o).db.balancesNonneg) ∧
    (∀ id b o, (setBanStatusAction db id b o).db.balancesNonneg) := by
  refine ⟨?_, ?_, ?_, ?_, ?_, ?_⟩
  · intro id un ref r hens
    unfold ensureUserRecord at hens
    cases hg : db.getUser id with
    | none =>
        simp only [hg] at hens
        cases hg2 : (db.createUser id 0 ref un).getUser id with
        | none =>
            simp only [hg2] at hens
            exact Option.noConfusion hens
        | some u =>
            simp only [hg2] at hens
            have hcreated : (db.createUser id 0 ref un).balancesNonneg :=
              balancesNonneg_createUser le_rfl h
            by_cases hun : u.username ≠ un
            · rw [if_pos hun] at hens
              cases Option.some.inj hens
              exact balancesNonneg_updateUser (fun _ hw => hw) hcreated
            · rw [if_neg hun] at hens
              cases Option.some.inj hens
              exact hcreated
    | some u0 =>
        simp only [hg] at hens
        by_cases hC : (optNatTruthy ref && decide (u0.referredBy = none) &&
            decide (ref ≠ some id)) = true
        · simp only [if_pos hC] at hens
          have hda : (db.assignReferrer id ref).balancesNonneg :=
            balancesNonneg_assignReferrer h
          by_cases hun : ({ u0 with referredBy := ref } : User).username ≠ un
          · rw [if_pos hun] at hens
            cases Option.some.inj hens
            exact balancesNonneg_updateUser (fun _ hw => hw) hda
          · rw [if_neg hun] at hens
            cases Option.some.inj hens
            exact hda
        · simp only [if_neg hC] at hens
          by_cases hun : u0.username ≠ un
          · rw [if_pos hun] at hens
            cases Option.some.inj hens
            exact balancesNonneg_updateUser (fun _ hw => hw) h
          · rw [if_neg hun] at hens
            cases Option.some.inj hens
            exact h
  · intro u o
    simp only [activateSubscription]
    split <;> split <;>
      first
      | exact balancesNonneg_updateUser (fun _ hw => hw)
          (balancesNonneg_updateBalance (by omega)
            (balancesNonneg_updateUser (fun _ hw => hw)
              (balancesNonneg_updateBalance (by omega)
                (balancesNonneg_updateUser (fun _ hw => hw) h))))
      | exact balancesNonneg_updateUser (fun _ hw => hw)
          (balancesNonneg_updateBalance (by omega)
            (balancesNonneg_updateUser (fun _ hw => hw) h))
      | exact balancesNonneg_updateUser (fun _ hw => hw) h
  · intro u now
    simp only [dailyBonus]
    split
    · split
      · exact h
      · exact balancesNonneg_updateUser (fun _ hw => hw)
          (balancesNonneg_updateBalance (by omega) h)
    · exact balancesNonneg_updateUser (fun _ hw => hw)
        (balancesNonneg_updateBalance (by omega) h)
  · intro u text now huniq
    cases hp : text.bind pyParseInt with
    | none =>
        simp only [processWithdrawAmount, hp]
        exact h
    | some a =>
        simp only [processWithdrawAmount, hp]
        by_cases h1 : a < s.minWithdrawal
        · simp only [if_pos h1]
          exact h
        · simp only [if_neg h1]
          by_cases h2 : u.balance < a
          · simp only [if_pos h2]
            exact h
          · simp only [if_neg h2]
            intro v hv
            simp only [Db.addWithdrawal, Db.updateBalance, Db.updateUser,
              List.mem_map] at hv
            obtain ⟨w, hw, rfl⟩ := hv
            by_cases hwi : w.telegramId = u.telegramId
            · have hwu : w = u := huniq w hw hwi
              subst hwu
              rw [if_pos rfl]
              show 0 ≤ w.balance + -a
              omega
            · rw [if_neg hwi]
              exact h w hw
  · intro rid st o
    unfold updateWithdrawalStatus
    split
    · exact h
    · exact h
  · intro id b o
    unfold setBanStatusAction
    split
    · exact h
    · split
      · exact h
      · exact balancesNonneg_updateUser (fun _ hw => hw) h

theorem c1_witness :
    (0 : Int) ≤ defaultSettings.startBonus ∧
    (0 : Int) ≤ defaultSettings.referralBonus ∧
    (0 : Int) ≤ defaultSettings.dailyBonus ∧
    c3db.balancesNonneg ∧
    ((∀ id un ref r, ensureUserRecord c3db id un ref = some r →
        r.2.2.balancesNonneg) ∧
      (∀ u o,
        (activateSubscription c3db u defaultSettings o).db.balancesNonneg) ∧
      (∀ u now, (dailyBonus c3db u defaultSettings now).1.balancesNonneg) ∧
      (∀ u text now,
        (∀ v ∈ c3db.users, v.telegramId = u.telegramId → v = u) →
        (processWithdrawAmount c3db u defaultSettings
          text now).db.balancesNonneg) ∧
      (∀ rid st o,
        (updateWithdrawalStatus c3db rid st o).db.balancesNonneg) ∧
      (∀ id b o, (setBanStatusAction c3db id b o).db.balancesNonneg)) :=
  ⟨by decide, by decide, by decide, by decide,
    c1_nonneg_preservation defaultSettings c3db (by decide) (by decide)
      (by decide) (by decide)⟩

/-- Every stored row with the tracked id has start_bonus_claimed set. -/
def startFlagTrue (db : Db) (id : Nat) : Prop :=
  ∀ w ∈ db.users, w.telegramId = id → w.startBonusClaimed = true

instance (db : Db) (id : Nat) : Decidable (startFlagTrue db id) :=
  inferInstanceAs
    (Decidable (∀ w ∈ db.users, w.telegramId = id →
      w.startBonusClaimed = true))

theorem startFlagTrue_updateUser {db : Db} {i id : Nat} {f : User → User}
    (hp : ∀ u, (f u).telegramId = u.telegramId)
    (hf : ∀ u, u.startBonusClaimed = true → (f u).startBonusClaimed = true)
    (h : startFlagTrue db id) : startFlagTrue (db.updateUser i f) id := by
  intro v hv ht
  simp only [Db.updateUser, List.mem_map] at hv
  obtain ⟨w, hw, rfl⟩ := hv
  by_cases hwi : w.telegramId = i
  · rw [if_pos hwi] at ht ⊢
    refine hf w (h w hw ?_)
    rw [hp w] at ht
    exact ht
  · rw [if_neg hwi] at ht ⊢
    exact h w hw ht

theorem startFlagTrue_assignReferrer {db : Db} {i id : Nat}
    {ref : Option Nat} (h : startFlagTrue db id) :
    startFlagTrue (db.assignReferrer i ref) id := by
  intro v hv ht
  simp only [Db.assignReferrer, List.mem_map] at hv
  obtain ⟨w, hw, rfl⟩ := hv
  by_cases hc : w.telegramId = i ∧ w.referredBy = none
  · rw [if_pos hc] at ht ⊢
    exact h w hw ht
  · rw [if_neg hc] at ht ⊢
    exact h w hw ht

theorem startFlagTrue_createUser {db : Db} {i id : Nat} {v : Int}
    {ref : Option Nat} {un : Option String}
    (hex : ∃ w ∈ db.users, w.telegramId = id)
    (h : startFlagTrue db id) :
    startFlagTrue (db.createUser i v ref un) id := by
  unfold Db.createUser
  split
  · exact h
  · rename_i hns
    intro w hw ht
    simp only [List.mem_append, List.mem_singleton] at hw
    rcases hw with hw | rfl
    · exact h w hw ht
    · exfalso
      obtain ⟨w0, hw0, hw0t⟩ := hex
      have hnone : db.getUser i = none := by
        cases hgi : db.getUser i with
        | none => rfl
        | some x => exact absurd (by rw [hgi]; rfl) hns
      unfold Db.getUser at hnone
      rw [List.find?_eq_none] at hnone
      have hnw := hnone w0 hw0
      simp only [decide_eq_true_eq] at hnw
      refine hnw ?_
      rw [hw0t]
      exact ht.symm

theorem startFlagTrue_activate (db : Db) (u : User) (s : Settings)
    (o : SendOutcome) (id : Nat) (h : startFlagTrue db id) :
    startFlagTrue (activateSubscription db u s o).db id := by
  simp only [activateSubscription]
  split <;> split <;>
    first
    | exact startFlagTrue_updateUser (fun _ => rfl) (fun _ hu => hu)
        (startFlagTrue_updateUser (fun _ => rfl) (fun _ hu => hu)
          (startFlagTrue_updateUser (fun _ => rfl) (fun _ _ => rfl)
            (startFlagTrue_updateUser (fun _ => rfl) (fun _ hu => hu)
              (startFlagTrue_updateUser (fun _ => rfl) (fun _ hu => hu) h))))
    | exact startFlagTrue_updateUser (fun _ => rfl) (fun _ hu => hu)
        (startFlagTrue_updateUser (fun _ => rfl) (fun _ hu => hu)
          (startFlagTrue_updateUser (fun _ => rfl) (fun _ hu => hu) h))
    | exact startFlagTrue_updateUser (fun _ => rfl) (fun _ _ => rfl)
        (startFlagTrue_updateUser (fun _ => rfl) (fun _ hu => hu)
          (startFlagTrue_updateUser (fun _ => rfl) (fun _ hu => hu) h))
    | exact startFlagTrue_updateUser (fun _ => rfl) (fun _ hu => hu) h

theorem startFlagTrue_unsub (db : Db) (u : User) (s : Settings)
    (n1 n2 : SendOutcome) (id : Nat) (h : startFlagTrue db id) :
    startFlagTrue (handleUnsubscription db u s n1 n2).db id := by
  simp only [handleUnsubscription]
  split
  · split <;>
      exact startFlagTrue_updateUser (fun _ => rfl) (fun _ hu => hu)
        (startFlagTrue_updateUser (fun _ => rfl) (fun _ hu => hu)
          (startFlagTrue_updateUser (fun _ => rfl) (fun _ hu => hu)
            (startFlagTrue_updateUser (fun _ => rfl) (fun _ hu => hu) h)))
  · exact startFlagTrue_updateUser (fun _ => rfl) (fun _ hu => hu) h

theorem ensure_db_shape (db : Db) (tid : Nat) (un : Option String)
    (ref : Option Nat) (u1 : User) (c1 : Bool) (d1 : Db)
    (hens : ensureUserRecord db tid un ref = some (u1, c1, d1)) :
    d1 = db ∨ d1 = db.assignReferrer tid ref ∨
    d1 = db.updateUsername tid un ∨
    d1 = (db.assignReferrer tid ref).updateUsername tid un ∨
    d1 = db.createUser tid 0 ref un ∨
    d1 = (db.createUser tid 0 ref un).updateUsername tid un := by
  unfold ensureUserRecord at hens
  cases hg : db.getUser tid with
  | none =>
      simp only [hg] at hens
      cases hg2 : (db.createUser tid 0 ref un).getUser tid with
      | none =>
          simp only [hg2] at hens
          exact Option.noConfusion hens
      | some u =>
          simp only [hg2] at hens
          by_cases hun : u.username ≠ un
          · rw [if_pos hun] at hens
            cases Option.some.inj hens
            right; right; right; right; right; rfl
          · rw [if_neg hun] at hens
            cases Option.some.inj hens
            right; right; right; right; left; rfl
  | some u0 =>
      simp only [hg] at hens
      by_cases hC : (optNatTruthy ref && decide (u0.referredBy = none) &&
          decide (ref ≠ some tid)) = true
      · simp only [if_pos hC] at hens
        by_cases hun : ({ u0 with referredBy := ref } : User).username ≠ un
        · rw [if_pos hun] at hens
          cases Option.some.inj hens
          right; right; right; left; rfl
        · rw [if_neg hun] at hens
          cases Option.some.inj hens
          right; left; rfl
      · simp only [if_neg hC] at hens
        by_cases hun : u0.username ≠ un
        · rw [if_pos hun] at hens
          cases Option.some.inj hens
          right; right; left; rfl
        · rw [if_neg hun] at hens
          cases Option.some.inj hens
          left; rfl

/-- Claim C10: create_user stores start_bonus_claimed as the truth of
initial_balance > 0; ensure creates missing accounts with balance 0 and
the flag false; activation with the flag already set never reports a
start-bonus award; and no modelled handler event ever clears the flag
of an existing account — an account created with a positive initial
balance is permanently ineligible for the start bonus. -/
theorem c10_start_bonus_gate (s : Settings) :
    (∀ (db : Db) (id : Nat) (v : Int) (ref : Option Nat)
      (un : Option String), db.getUser id = none →
      (db.createUser id v ref un).getUser id =
        some ⟨id, v, ref, false, false, none, un, false, decide (0 < v)⟩) ∧
    (∀ db id un ref u c d, db.getUser id = none →
      ensureUserRecord db id un ref = some (u, c, d) →
      u.balance = 0 ∧ u.startBonusClaimed = false ∧ c = true) ∧
    (∀ db u o, u.startBonusClaimed = true →
      (activateSubscription db u s o).startBonusAwarded = false) ∧
    (∀ db op id, (∃ w ∈ db.users, w.telegramId = id) →
      startFlagTrue db id → startFlagTrue (applyOp s db op) id) := by
  refine ⟨?_, ?_, ?_, ?_⟩
  · intro db id v ref un h
    exact getUser_createUser_new h
  · intro db id un ref u c d hnone hens
    have he : ensureUserRecord db id un ref =
        some (⟨id, 0, ref, false, false, none, un, false, false⟩, true,
          db.createUser id 0 ref un) := by
      unfold ensureUserRecord
      simp only [hnone]
      rw [getUser_createUser_new hnone]
      simp
    rw [he] at hens
    cases Option.some.inj hens
    exact ⟨rfl, rfl, rfl⟩
  · intro db u o hf
    simp [activateSubscription, hf, apply_ite]
  · intro db op id hex h
    cases op with
    | ensure tid un ref =>
        simp only [applyOp]
        cases hens : ensureUserRecord db tid un ref with
        | none => exact h
        | some r =>
            obtain ⟨u1, c1, d1⟩ := r
            simp only [hens]
            rcases ensure_db_shape db tid un ref u1 c1 d1 hens with
              h1 | h1 | h1 | h1 | h1 | h1 <;> rw [h1]
            · exact h
            · exact startFlagTrue_assignReferrer h
            · exact startFlagTrue_updateUser (fun _ => rfl) (fun _ hu => hu) h
            · exact startFlagTrue_updateUser (fun _ => rfl) (fun _ hu => hu)
                (startFlagTrue_assignReferrer h)
            · exact startFlagTrue_createUser hex h
            · exact startFlagTrue_updateUser (fun _ => rfl) (fun _ hu => hu)
                (startFlagTrue_createUser hex h)
    | verify tid m o1 o2 o3 =>
        simp only [applyOp]
        cases hg : db.getUser tid with
        | none => exact h
        | some u =>
            simp only [hg]
            unfold verifyAndActivate
            split
            · split
              · exact startFlagTrue_unsub db u s o2 o3 id h
              · exact h
            · split
              · exact startFlagTrue_activate db u s o1 id h
              · exact h
    | daily tid now =>
        simp only [applyOp]
        cases hg : db.getUser tid with
        | none => exact h
        | some u =>
            simp only [hg]
            simp only [dailyBonus]
            split
            · split
              · exact h
              · exact startFlagTrue_updateUser (fun _ => rfl) (fun _ hu => hu)
                  (startFlagTrue_updateUser (fun _ => rfl) (fun _ hu => hu) h)
            · exact startFlagTrue_updateUser (fun _ => rfl) (fun _ hu => hu)
                (startFlagTrue_updateUser (fun _ => rfl) (fun _ hu => hu) h)
    | withdrawAmount tid text now =>
        simp only [applyOp]
        cases hg : db.getUser tid with
        | none => exact h
        | some u =>
            simp only [hg]
            cases hp : text.bind pyParseInt with
            | none =>
                simp only [processWithdrawAmount, hp]
                exact h
            | some a =>
                simp only [processWithdrawAmount, hp]
                by_cases h1 : a < s.minWithdrawal
                · simp only [if_pos h1]
                  exact h
                · simp only [if_neg h1]
                  by_cases h2 : u.balance < a
                  · simp only [if_pos h2]
                    exact h
                  · simp only [if_neg h2]
                    exact startFlagTrue_updateUser (fun _ => rfl)
                      (fun _ hu => hu) h
    | resolve rid st o =>
        simp only [applyOp]
        unfold updateWithdrawalStatus
        split
        · exact h
        · exact h
    | moderateBan tid b o =>
        simp only [applyOp]
        unfold setBanStatusAction
        split
        · exact h
        · split
          · exact h
          · exact startFlagTrue_updateUser (fun _ => rfl) (fun _ hu => hu) h

theorem c10_witness :
    (∃ w ∈ c3db.users, w.telegramId = 1) ∧ startFlagTrue c3db 1 ∧
    startFlagTrue (applyOp defaultSettings c3db (Op.daily 1 0)) 1 ∧
    (c3user.startBonusClaimed = true ∧
      (activateSubscription c3db c3user defaultSettings
        none).startBonusAwarded = false) :=
  ⟨by decide, by decide,
    (c10_start_bonus_gate defaultSettings).2.2.2 c3db (Op.daily 1 0) 1
      (by decide) (by decide),
    ⟨rfl, (c10_start_bonus_gate defaultSettings).2.2.1 c3db c3user none rfl⟩⟩

end TvBot


